import Mathlib

/-!
Shallow embedding of the tFUS safety calculator (src/src/App.tsx).

JavaScript numbers are modelled as real numbers (every finite IEEE double
is a real); the `throw` in `calculateBeamAreaAtSkull` is modelled by
`Option`, with `none` for the thrown error.  The two maximum-exposure
lookup tables return `Infinity` in the source; they are modelled over the
rationals (every finite JS number is rational) with `WithTop ℚ`, whose
`⊤` stands for `Infinity`.
-/

namespace TFUS

/-- Input record `SafetyParams` (App.tsx lines 4-15). -/
structure SafetyParams where
  pulseRepetitionRateKHz : ℝ
  frequencyMHz : ℝ
  cycles : ℝ
  transducerWidthCm : ℝ
  transducerHeightCm : ℝ
  transducerPressureKPa : ℝ
  useElevationalFocusing : Bool
  elevationalFocalDepthCm : ℝ
  useAzimuthalFocusing : Bool
  azimuthalFocalDepthCm : ℝ

/-- `MHZ_TO_HZ = 1e6` (line 17). -/
def MHZ_TO_HZ : ℝ := 1e6
/-- `KHZ_TO_HZ = 1e3` (line 18). -/
def KHZ_TO_HZ : ℝ := 1e3
/-- `KPA_TO_PA = 1000` (line 19). -/
def KPA_TO_PA : ℝ := 1000
/-- `CM2_TO_M2 = 1e-4` (line 20). -/
def CM2_TO_M2 : ℝ := 1e-4
/-- `W_TO_MW = 1000` (line 21). -/
def W_TO_MW : ℝ := 1000
/-- `PA_TO_MPA = 1e-6` (line 22). -/
def PA_TO_MPA : ℝ := 1e-6
/-- `C_CONSTANT_MW_PER_CM = 40` (line 23). -/
def C_CONSTANT_MW_PER_CM : ℝ := 40
/-- `SPEED_OF_SOUND_M_PER_S = 1540` (line 24). -/
def SPEED_OF_SOUND_M_PER_S : ℝ := 1540
/-- `DENSITY_KG_PER_M3 = 1058` (line 25). -/
def DENSITY_KG_PER_M3 : ℝ := 1058
/-- `IMPEDANCE_RAYL = SPEED_OF_SOUND_M_PER_S * DENSITY_KG_PER_M3` (line 26). -/
def IMPEDANCE_RAYL : ℝ := SPEED_OF_SOUND_M_PER_S * DENSITY_KG_PER_M3
/-- `CM_TO_M = 0.01` (line 27). -/
def CM_TO_M : ℝ := 0.01

/-- `skullDepthCm = 1` (line 83), local constant of `calculateBeamAreaAtSkull`. -/
def skullDepthCm : ℝ := 1

/-- `calculateFocusingGain` (lines 55-65): square root of the Fresnel number
`dimension² / (wavelength × focalDepth)`, all lengths in meters. -/
noncomputable def calculateFocusingGain (transducerDimensionCm focalDepthCm frequencyMHz : ℝ) : ℝ :=
  let wavelengthM := SPEED_OF_SOUND_M_PER_S / (frequencyMHz * MHZ_TO_HZ)
  let transducerDimensionM := transducerDimensionCm * CM_TO_M
  let focalDepthM := focalDepthCm * CM_TO_M
  let fresnelNumber := transducerDimensionM ^ 2 / (wavelengthM * focalDepthM)
  Real.sqrt fresnelNumber

/-- `calculateIntensity` (lines 67-69): `p²/(2Z) × 1e-4`. -/
noncomputable def calculateIntensity (pressurePa impedanceRayl : ℝ) : ℝ :=
  pressurePa * pressurePa / (2 * impedanceRayl) * CM2_TO_M2

/-- `calculateAverageIntensity` (lines 71-73): `I × dutyCycle × 1000`. -/
noncomputable def calculateAverageIntensity (intensityPerPulseWPerCm2 dutyCycle : ℝ) : ℝ :=
  intensityPerPulseWPerCm2 * dutyCycle * W_TO_MW

open Classical in
/-- `calculateBeamAreaAtSkull` (lines 75-101).  The source `throw`
("Focal depth is too shallow") is modelled as `none`; note the guard
tests `skullDepthCm / focalDepth < 0`, exactly as the source does. -/
noncomputable def calculateBeamAreaAtSkull
    (transducerWidthCm transducerHeightCm : ℝ)
    (useElevationalFocusing : Bool) (elevationalFocalDepthCm : ℝ)
    (useAzimuthalFocusing : Bool) (azimuthalFocalDepthCm : ℝ) : Option ℝ :=
  if skullDepthCm / elevationalFocalDepthCm < 0 ∨ skullDepthCm / azimuthalFocalDepthCm < 0 then
    none
  else
    let areaFactor : ℝ :=
      (if useElevationalFocusing then 1 - skullDepthCm / elevationalFocalDepthCm else 1) *
        (if useAzimuthalFocusing then 1 - skullDepthCm / azimuthalFocalDepthCm else 1)
    some (transducerWidthCm * transducerHeightCm * areaFactor)

/-- `calculateThermalIndex` (lines 103-126).  Propagates the thrown error of
`calculateBeamAreaAtSkull` as `none`. -/
noncomputable def calculateThermalIndex
    (transducerWidthCm transducerHeightCm transducerAverageIntensityMWPerCm2 : ℝ)
    (useElevationalFocusing : Bool) (elevationalFocalDepthCm : ℝ)
    (useAzimuthalFocusing : Bool) (azimuthalFocalDepthCm : ℝ) : Option ℝ :=
  let transducerAreaCm2 := transducerWidthCm * transducerHeightCm
  let transducerPowerMW := transducerAverageIntensityMWPerCm2 * transducerAreaCm2
  (calculateBeamAreaAtSkull transducerWidthCm transducerHeightCm
      useElevationalFocusing elevationalFocalDepthCm
      useAzimuthalFocusing azimuthalFocalDepthCm).map
    fun beamAreaAtSkullCm2 =>
      let equivalentDiameterCm := 2 * Real.sqrt (beamAreaAtSkullCm2 / Real.pi)
      transducerPowerMW / (C_CONSTANT_MW_PER_CM * equivalentDiameterCm)

/-- `calculateMechanicalIndex` (lines 128-131): `p(MPa) / sqrt(fMHz)`. -/
noncomputable def calculateMechanicalIndex (brainPressurePa frequencyMHz : ℝ) : ℝ :=
  brainPressurePa * PA_TO_MPA / Real.sqrt frequencyMHz

/-- The pressure at the focus (App.tsx lines 144-162): the surface pressure
in Pa, multiplied by the focusing gain of each enabled axis in turn. -/
noncomputable def brainPressurePa (p : SafetyParams) : ℝ :=
  let base := p.transducerPressureKPa * KPA_TO_PA
  let afterElev :=
    if p.useElevationalFocusing then
      base * calculateFocusingGain p.transducerHeightCm p.elevationalFocalDepthCm p.frequencyMHz
    else base
  if p.useAzimuthalFocusing then
    afterElev * calculateFocusingGain p.transducerWidthCm p.azimuthalFocalDepthCm p.frequencyMHz
  else afterElev

/-- Output record set by `setResults` (lines 44-53 and 186-195). -/
structure SafetyMetrics where
  pulseDurationSec : ℝ
  dutyCycle : ℝ
  intensityPerPulseWPerCm2 : ℝ
  averageIntensityMWPerCm2 : ℝ
  transducerAveragePowerMW : ℝ
  tic : ℝ
  mechanicalIndex : ℝ
  brainPressureKPa : ℝ

/-- `calculateResults` (lines 133-196): the full pipeline.  Returns `none`
exactly when `calculateThermalIndex` hits the thrown error (in which case
the source never reaches `setResults`). -/
noncomputable def calculateResults (p : SafetyParams) : Option SafetyMetrics :=
  let pulseDurationSec := p.cycles / (p.frequencyMHz * MHZ_TO_HZ)
  let dutyCycle := pulseDurationSec * (p.pulseRepetitionRateKHz * KHZ_TO_HZ)
  let transducerPressurePa := p.transducerPressureKPa * KPA_TO_PA
  let transducerIntensityPerPulseWPerCm2 := calculateIntensity transducerPressurePa IMPEDANCE_RAYL
  let transducerAverageIntensityMWPerCm2 :=
    calculateAverageIntensity transducerIntensityPerPulseWPerCm2 dutyCycle
  let bp := brainPressurePa p
  let brainIntensityPerPulseWPerCm2 := calculateIntensity bp IMPEDANCE_RAYL
  let brainAverageIntensityMWPerCm2 :=
    calculateAverageIntensity brainIntensityPerPulseWPerCm2 dutyCycle
  let mechanicalIndex := calculateMechanicalIndex bp p.frequencyMHz
  (calculateThermalIndex p.transducerWidthCm p.transducerHeightCm
      transducerAverageIntensityMWPerCm2
      p.useElevationalFocusing p.elevationalFocalDepthCm
      p.useAzimuthalFocusing p.azimuthalFocalDepthCm).map
    fun tic =>
      let transducerAreaCm2 := p.transducerWidthCm * p.transducerHeightCm
      let transducerAveragePowerMW := transducerAverageIntensityMWPerCm2 * transducerAreaCm2
      { pulseDurationSec := pulseDurationSec
        dutyCycle := dutyCycle
        intensityPerPulseWPerCm2 := brainIntensityPerPulseWPerCm2
        averageIntensityMWPerCm2 := brainAverageIntensityMWPerCm2
        transducerAveragePowerMW := transducerAveragePowerMW
        tic := tic
        mechanicalIndex := mechanicalIndex
        brainPressureKPa := bp / KPA_TO_PA }

/-- BMUS maximum-exposure lookup `getMaxExposureTime` (lines 202-211);
`Infinity` is modelled as `⊤`. -/
def getMaxExposureTime (tic : ℚ) : WithTop ℚ :=
  if tic ≤ 0.7 then ⊤
  else if tic ≤ 1 then ((60 : ℚ) : WithTop ℚ)
  else if tic ≤ 1.5 then ((30 : ℚ) : WithTop ℚ)
  else if tic ≤ 2 then ((15 : ℚ) : WithTop ℚ)
  else if tic ≤ 2.5 then ((4 : ℚ) : WithTop ℚ)
  else if tic ≤ 3 then ((1 : ℚ) : WithTop ℚ)
  else ((0 : ℚ) : WithTop ℚ)

/-- ITRUSST maximum-exposure lookup `getITRUSSTMaxExposureTime`
(lines 213-223); `Infinity` is modelled as `⊤`. -/
def getITRUSSTMaxExposureTime (tic : ℚ) : WithTop ℚ :=
  if tic ≤ 1.5 then ⊤
  else if tic ≤ 2 then ((80 : ℚ) : WithTop ℚ)
  else if tic ≤ 2.5 then ((40 : ℚ) : WithTop ℚ)
  else if tic ≤ 3 then ((10 : ℚ) : WithTop ℚ)
  else if tic ≤ 4 then ((2.67 : ℚ) : WithTop ℚ)
  else if tic ≤ 4.5 then ((0.67 : ℚ) : WithTop ℚ)
  else if tic ≤ 5 then ((0.17 : ℚ) : WithTop ℚ)
  else ((0 : ℚ) : WithTop ℚ)

/-- MI classification check (line 406): passes iff `mechanicalIndex < 1.9`. -/
def miCheckPasses (m : SafetyMetrics) : Prop := m.mechanicalIndex < 1.9

/-- Peak-intensity (ISPPA) check (line 418): passes iff intensity `< 190` W/cm². -/
def peakIntensityCheckPasses (m : SafetyMetrics) : Prop :=
  m.intensityPerPulseWPerCm2 < 190

/-- Average-intensity (ISPTA) check (line 435): passes iff `< 720` mW/cm². -/
def averageIntensityCheckPasses (m : SafetyMetrics) : Prop :=
  m.averageIntensityMWPerCm2 < 720

/-- The `useEffect` recompute step (lines 198-200 with 186-195): `setResults`
replaces the previous results record wholesale with `calculateResults` of the
current parameters; no field of the previous record is read. -/
noncomputable def recomputeStep (_previous : Option SafetyMetrics) (p : SafetyParams) :
    Option SafetyMetrics :=
  calculateResults p

/-- The default parameter set (lines 31-42). -/
def defaultParams : SafetyParams :=
  { pulseRepetitionRateKHz := 5
    frequencyMHz := 2
    cycles := 2
    transducerWidthCm := 2.87
    transducerHeightCm := 1.33
    transducerPressureKPa := 600
    useElevationalFocusing := false
    elevationalFocalDepthCm := 3
    useAzimuthalFocusing := false
    azimuthalFocalDepthCm := 3 }

/-! ### Derived views of the pipeline, used to state and prove the claims -/

/-- The pulse duration computed at App.tsx line 134. -/
noncomputable def pulseDurationSecOf (p : SafetyParams) : ℝ :=
  p.cycles / (p.frequencyMHz * MHZ_TO_HZ)

/-- The duty cycle computed at App.tsx line 135. -/
noncomputable def dutyCycleOf (p : SafetyParams) : ℝ :=
  pulseDurationSecOf p * (p.pulseRepetitionRateKHz * KHZ_TO_HZ)

/-- The transducer-face per-pulse intensity (line 138). -/
noncomputable def transducerIntensityOf (p : SafetyParams) : ℝ :=
  calculateIntensity (p.transducerPressureKPa * KPA_TO_PA) IMPEDANCE_RAYL

/-- The transducer-face average intensity (lines 139-142). -/
noncomputable def transducerAvgIntensityOf (p : SafetyParams) : ℝ :=
  calculateAverageIntensity (transducerIntensityOf p) (dutyCycleOf p)

/-- The beam area at the skull, in the non-thrown case (lines 89-100). -/
noncomputable def beamAreaAtSkullOf (p : SafetyParams) : ℝ :=
  p.transducerWidthCm * p.transducerHeightCm *
    ((if p.useElevationalFocusing then 1 - skullDepthCm / p.elevationalFocalDepthCm else 1) *
      (if p.useAzimuthalFocusing then 1 - skullDepthCm / p.azimuthalFocalDepthCm else 1))

/-- The thermal index in the non-thrown case (lines 112-125). -/
noncomputable def ticOf (p : SafetyParams) : ℝ :=
  transducerAvgIntensityOf p * (p.transducerWidthCm * p.transducerHeightCm) /
    (C_CONSTANT_MW_PER_CM * (2 * Real.sqrt (beamAreaAtSkullOf p / Real.pi)))

/-- The metrics record produced in the non-thrown case (lines 186-195). -/
noncomputable def metricsOf (p : SafetyParams) : SafetyMetrics :=
  { pulseDurationSec := pulseDurationSecOf p
    dutyCycle := dutyCycleOf p
    intensityPerPulseWPerCm2 := calculateIntensity (brainPressurePa p) IMPEDANCE_RAYL
    averageIntensityMWPerCm2 :=
      calculateAverageIntensity (calculateIntensity (brainPressurePa p) IMPEDANCE_RAYL)
        (dutyCycleOf p)
    transducerAveragePowerMW :=
      transducerAvgIntensityOf p * (p.transducerWidthCm * p.transducerHeightCm)
    tic := ticOf p
    mechanicalIndex := calculateMechanicalIndex (brainPressurePa p) p.frequencyMHz
    brainPressureKPa := brainPressurePa p / KPA_TO_PA }

/-- The focal-depth guard of `calculateBeamAreaAtSkull` (line 85), as a
predicate on the parameter record. -/
def focalGuardFires (p : SafetyParams) : Prop :=
  skullDepthCm / p.elevationalFocalDepthCm < 0 ∨ skullDepthCm / p.azimuthalFocalDepthCm < 0

theorem calculateResults_eq (p : SafetyParams) (hg : ¬ focalGuardFires p) :
    calculateResults p = some (metricsOf p) := by
  have hg' : ¬(skullDepthCm / p.elevationalFocalDepthCm < 0 ∨
      skullDepthCm / p.azimuthalFocalDepthCm < 0) := hg
  unfold calculateResults calculateThermalIndex calculateBeamAreaAtSkull
  rw [if_neg hg']
  rfl

theorem calculateResults_eq_none (p : SafetyParams) (hg : focalGuardFires p) :
    calculateResults p = none := by
  have hg' : skullDepthCm / p.elevationalFocalDepthCm < 0 ∨
      skullDepthCm / p.azimuthalFocalDepthCm < 0 := hg
  unfold calculateResults calculateThermalIndex calculateBeamAreaAtSkull
  rw [if_pos hg']
  rfl

theorem calculateResults_some_eq (p : SafetyParams) (m : SafetyMetrics)
    (h : calculateResults p = some m) : m = metricsOf p := by
  by_cases hg : focalGuardFires p
  · rw [calculateResults_eq_none p hg] at h
    exact absurd h (by simp)
  · rw [calculateResults_eq p hg] at h
    exact (Option.some_inj.mp h).symm

/-! ### Concrete parameter records used as evidence -/

/-- Default parameters with elevational focusing enabled at the 1 cm skull
depth. -/
def shallowFocusParams : SafetyParams :=
  { defaultParams with useElevationalFocusing := true, elevationalFocalDepthCm := 1 }

/-- Default parameters with a zero (non-positive) fundamental frequency. -/
def zeroFrequencyParams : SafetyParams :=
  { defaultParams with frequencyMHz := 0 }

/-- Default parameters with a negative surface pressure. -/
def negativePressureParams : SafetyParams :=
  { defaultParams with transducerPressureKPa := -600 }

/-- C1: the claim says a focal depth equal to the 1 cm skull depth must raise
the "focal depth too shallow" error.  The code's guard tests
`skullDepth/focalDepth < 0`, which never fires for a positive focal depth:
at `elevationalFocalDepthCm = 1` with elevational focusing enabled the call
returns `some 0` (beam area zero, so the TIC computation divides by zero)
instead of throwing, and `calculateResults` produces a metrics record. -/
theorem shallow_focus_guard_does_not_fire :
    calculateBeamAreaAtSkull 2.87 1.33 true 1 false 3 = some 0 ∧
      (calculateResults shallowFocusParams).isSome = true := by
  constructor
  · unfold calculateBeamAreaAtSkull
    rw [if_neg (by norm_num [skullDepthCm])]
    norm_num [skullDepthCm]
  · rw [calculateResults_eq shallowFocusParams
      (by norm_num [focalGuardFires, shallowFocusParams, defaultParams, skullDepthCm])]
    rfl

/-- C2 counterexample: an input with non-positive `frequencyMHz = 0` is not
rejected; `calculateResults` returns a computed metrics record rather than
an explicit failure. -/
theorem zero_frequency_not_rejected :
    (calculateResults zeroFrequencyParams).isSome = true := by
  rw [calculateResults_eq zeroFrequencyParams
    (by norm_num [focalGuardFires, zeroFrequencyParams, defaultParams, skullDepthCm])]
  rfl

/-- C2 amended: `calculateResults` performs no input validation.  For every
parameter record on which the focal-depth guard does not fire, it returns a
computed metrics record, whatever the signs of the numeric fields. -/
theorem calculateResults_never_rejects (p : SafetyParams)
    (hg : ¬ focalGuardFires p) : (calculateResults p).isSome = true := by
  rw [calculateResults_eq p hg]
  rfl

/-- Witness for C2 amended: a negative surface pressure is not rejected. -/
theorem calculateResults_never_rejects_witness :
    (calculateResults negativePressureParams).isSome = true :=
  calculateResults_never_rejects negativePressureParams
    (by norm_num [focalGuardFires, negativePressureParams, defaultParams, skullDepthCm])

/-- C4: both maximum-exposure lookups are ordered step functions: BMUS maps
TIC ≤ 0.7 to an unbounded duration and TIC > 3 to zero with the documented
intermediate bands; ITRUSST maps TIC ≤ 1.5 to an unbounded duration and
TIC > 5 to zero with its documented bands. -/
theorem exposure_tables_step_function (t : ℚ) :
    (t ≤ 0.7 → getMaxExposureTime t = ⊤) ∧
    (0.7 < t → t ≤ 1 → getMaxExposureTime t = ((60 : ℚ) : WithTop ℚ)) ∧
    (1 < t → t ≤ 1.5 → getMaxExposureTime t = ((30 : ℚ) : WithTop ℚ)) ∧
    (1.5 < t → t ≤ 2 → getMaxExposureTime t = ((15 : ℚ) : WithTop ℚ)) ∧
    (2 < t → t ≤ 2.5 → getMaxExposureTime t = ((4 : ℚ) : WithTop ℚ)) ∧
    (2.5 < t → t ≤ 3 → getMaxExposureTime t = ((1 : ℚ) : WithTop ℚ)) ∧
    (3 < t → getMaxExposureTime t = ((0 : ℚ) : WithTop ℚ)) ∧
    (t ≤ 1.5 → getITRUSSTMaxExposureTime t = ⊤) ∧
    (1.5 < t → t ≤ 2 → getITRUSSTMaxExposureTime t = ((80 : ℚ) : WithTop ℚ)) ∧
    (2 < t → t ≤ 2.5 → getITRUSSTMaxExposureTime t = ((40 : ℚ) : WithTop ℚ)) ∧
    (2.5 < t → t ≤ 3 → getITRUSSTMaxExposureTime t = ((10 : ℚ) : WithTop ℚ)) ∧
    (3 < t → t ≤ 4 → getITRUSSTMaxExposureTime t = ((2.67 : ℚ) : WithTop ℚ)) ∧
    (4 < t → t ≤ 4.5 → getITRUSSTMaxExposureTime t = ((0.67 : ℚ) : WithTop ℚ)) ∧
    (4.5 < t → t ≤ 5 → getITRUSSTMaxExposureTime t = ((0.17 : ℚ) : WithTop ℚ)) ∧
    (5 < t → getITRUSSTMaxExposureTime t = ((0 : ℚ) : WithTop ℚ)) := by
  unfold getMaxExposureTime getITRUSSTMaxExposureTime
  refine ⟨fun h => ?_, fun h h' => ?_, fun h h' => ?_, fun h h' => ?_, fun h h' => ?_,
    fun h h' => ?_, fun h => ?_, fun h => ?_, fun h h' => ?_, fun h h' => ?_,
    fun h h' => ?_, fun h h' => ?_, fun h h' => ?_, fun h h' => ?_, fun h => ?_⟩ <;>
    (split_ifs <;> first | rfl | (exfalso; linarith))

/-- Witness for C4: one representative TIC value per band of each table. -/
theorem exposure_tables_step_function_witness :
    getMaxExposureTime 0.5 = ⊤ ∧
    getMaxExposureTime 0.8 = ((60 : ℚ) : WithTop ℚ) ∧
    getMaxExposureTime 1.2 = ((30 : ℚ) : WithTop ℚ) ∧
    getMaxExposureTime 1.8 = ((15 : ℚ) : WithTop ℚ) ∧
    getMaxExposureTime 2.2 = ((4 : ℚ) : WithTop ℚ) ∧
    getMaxExposureTime 2.8 = ((1 : ℚ) : WithTop ℚ) ∧
    getMaxExposureTime 3.5 = ((0 : ℚ) : WithTop ℚ) ∧
    getITRUSSTMaxExposureTime 1 = ⊤ ∧
    getITRUSSTMaxExposureTime 1.8 = ((80 : ℚ) : WithTop ℚ) ∧
    getITRUSSTMaxExposureTime 2.2 = ((40 : ℚ) : WithTop ℚ) ∧
    getITRUSSTMaxExposureTime 2.8 = ((10 : ℚ) : WithTop ℚ) ∧
    getITRUSSTMaxExposureTime 3.5 = ((2.67 : ℚ) : WithTop ℚ) ∧
    getITRUSSTMaxExposureTime 4.2 = ((0.67 : ℚ) : WithTop ℚ) ∧
    getITRUSSTMaxExposureTime 4.8 = ((0.17 : ℚ) : WithTop ℚ) ∧
    getITRUSSTMaxExposureTime 5.5 = ((0 : ℚ) : WithTop ℚ) :=
  ⟨(exposure_tables_step_function 0.5).1 (by norm_num),
    (exposure_tables_step_function 0.8).2.1 (by norm_num) (by norm_num),
    (exposure_tables_step_function 1.2).2.2.1 (by norm_num) (by norm_num),
    (exposure_tables_step_function 1.8).2.2.2.1 (by norm_num) (by norm_num),
    (exposure_tables_step_function 2.2).2.2.2.2.1 (by norm_num) (by norm_num),
    (exposure_tables_step_function 2.8).2.2.2.2.2.1 (by norm_num) (by norm_num),
    (exposure_tables_step_function 3.5).2.2.2.2.2.2.1 (by norm_num),
    (exposure_tables_step_function 1).2.2.2.2.2.2.2.1 (by norm_num),
    (exposure_tables_step_function 1.8).2.2.2.2.2.2.2.2.1 (by norm_num) (by norm_num),
    (exposure_tables_step_function 2.2).2.2.2.2.2.2.2.2.2.1 (by norm_num) (by norm_num),
    (exposure_tables_step_function 2.8).2.2.2.2.2.2.2.2.2.2.1 (by norm_num) (by norm_num),
    (exposure_tables_step_function 3.5).2.2.2.2.2.2.2.2.2.2.2.1 (by norm_num) (by norm_num),
    (exposure_tables_step_function 4.2).2.2.2.2.2.2.2.2.2.2.2.2.1 (by norm_num) (by norm_num),
    (exposure_tables_step_function 4.8).2.2.2.2.2.2.2.2.2.2.2.2.2.1 (by norm_num) (by norm_num),
    (exposure_tables_step_function 5.5).2.2.2.2.2.2.2.2.2.2.2.2.2.2 (by norm_num)⟩

/-- C5: every classification comparison is strict: the MI check passes iff
`mechanicalIndex < 1.9` (so exactly 1.9 fails), the peak-intensity check
passes iff `< 190` W/cm², and the average-intensity check passes iff
`< 720` mW/cm². -/
theorem classification_thresholds_strict (m : SafetyMetrics) :
    (miCheckPasses m ↔ m.mechanicalIndex < 1.9) ∧
    (peakIntensityCheckPasses m ↔ m.intensityPerPulseWPerCm2 < 190) ∧
    (averageIntensityCheckPasses m ↔ m.averageIntensityMWPerCm2 < 720) ∧
    (m.mechanicalIndex = 1.9 → ¬ miCheckPasses m) ∧
    (m.intensityPerPulseWPerCm2 = 190 → ¬ peakIntensityCheckPasses m) ∧
    (m.averageIntensityMWPerCm2 = 720 → ¬ averageIntensityCheckPasses m) := by
  refine ⟨Iff.rfl, Iff.rfl, Iff.rfl, fun h => ?_, fun h => ?_, fun h => ?_⟩ <;>
    simp [miCheckPasses, peakIntensityCheckPasses, averageIntensityCheckPasses, h]

/-- Metrics record sitting exactly on the three classification limits. -/
def boundaryMetrics : SafetyMetrics :=
  { pulseDurationSec := 0
    dutyCycle := 0
    intensityPerPulseWPerCm2 := 190
    averageIntensityMWPerCm2 := 720
    transducerAveragePowerMW := 0
    tic := 0
    mechanicalIndex := 1.9
    brainPressureKPa := 0 }

/-- Witness for C5: the record on the exact limits fails all three checks. -/
theorem classification_thresholds_strict_witness :
    ¬ miCheckPasses boundaryMetrics ∧ ¬ peakIntensityCheckPasses boundaryMetrics ∧
      ¬ averageIntensityCheckPasses boundaryMetrics :=
  ⟨(classification_thresholds_strict boundaryMetrics).2.2.2.1 rfl,
    (classification_thresholds_strict boundaryMetrics).2.2.2.2.1 rfl,
    (classification_thresholds_strict boundaryMetrics).2.2.2.2.2 rfl⟩

/-- C8: the recompute step is deterministic and history-free: `setResults`
replaces the whole record with `calculateResults` of the current parameters,
so the outcome does not depend on the previous results, and two runs on the
same parameters agree. -/
theorem recompute_deterministic (prev₁ prev₂ : Option SafetyMetrics) (p : SafetyParams) :
    recomputeStep prev₁ p = recomputeStep prev₂ p ∧
      recomputeStep prev₁ p = calculateResults p :=
  ⟨rfl, rfl⟩

/-- C6: with both focusing toggles off, the computed pressure at the focus
equals the transducer surface pressure exactly: the `brainPressureKPa`
field of the results equals the input `transducerPressureKPa`, and the
internal pressure in Pa is the surface pressure converted to Pa with no
gain factor. -/
theorem no_focusing_pressure_unchanged (p : SafetyParams) (m : SafetyMetrics)
    (he : p.useElevationalFocusing = false) (ha : p.useAzimuthalFocusing = false)
    (hm : calculateResults p = some m) :
    m.brainPressureKPa = p.transducerPressureKPa ∧
      brainPressurePa p = p.transducerPressureKPa * KPA_TO_PA := by
  have hb : brainPressurePa p = p.transducerPressureKPa * KPA_TO_PA := by
    simp [brainPressurePa, he, ha]
  refine ⟨?_, hb⟩
  rw [calculateResults_some_eq p m hm]
  show brainPressurePa p / KPA_TO_PA = p.transducerPressureKPa
  rw [hb, KPA_TO_PA]
  norm_num

/-- Witness for C6: at the default parameters (both toggles off) the
pressure at focus stays at 600 kPa. -/
theorem no_focusing_pressure_unchanged_witness :
    (metricsOf defaultParams).brainPressureKPa = 600 ∧
      brainPressurePa defaultParams = 600 * KPA_TO_PA :=
  no_focusing_pressure_unchanged defaultParams (metricsOf defaultParams) rfl rfl
    (calculateResults_eq defaultParams
      (by norm_num [focalGuardFires, defaultParams, skullDepthCm]))

/-- C7: for positive frequency and cycle count the computed pulse duration
is `cycles / (frequencyMHz × 1e6)` seconds exactly, and the duty cycle is
that duration times `pulseRepetitionRateKHz × 1e3`, as a dimensionless
fraction (no ×100). -/
theorem pulse_timing_formulas (p : SafetyParams) (m : SafetyMetrics)
    (hf : 0 < p.frequencyMHz) (hc : 0 < p.cycles)
    (hm : calculateResults p = some m) :
    m.pulseDurationSec = p.cycles / (p.frequencyMHz * 1e6) ∧
      m.dutyCycle = p.cycles / (p.frequencyMHz * 1e6) * (p.pulseRepetitionRateKHz * 1e3) := by
  rw [calculateResults_some_eq p m hm]
  constructor <;>
    simp [metricsOf, pulseDurationSecOf, dutyCycleOf, MHZ_TO_HZ, KHZ_TO_HZ]

/-- Witness for C7: at the default parameters the pulse duration is 1 µs and
the duty cycle is the fraction 0.005, not a percent. -/
theorem pulse_timing_formulas_witness :
    (metricsOf defaultParams).pulseDurationSec = 1e-6 ∧
      (metricsOf defaultParams).dutyCycle = 0.005 := by
  have h := pulse_timing_formulas defaultParams (metricsOf defaultParams)
    (by norm_num [defaultParams]) (by norm_num [defaultParams])
    (calculateResults_eq defaultParams
      (by norm_num [focalGuardFires, defaultParams, skullDepthCm]))
  constructor
  · rw [h.1]
    norm_num [defaultParams]
  · rw [h.2]
    norm_num [defaultParams]

/-- C9: two inputs that differ only in the focusing settings (toggles and
focal depths) produce identical `pulseDurationSec`, `dutyCycle` and
`transducerAveragePowerMW`: those fields derive from the surface pressure
and timing alone. -/
theorem focusing_frame_effect (p₁ p₂ : SafetyParams) (m₁ m₂ : SafetyMetrics)
    (h1 : p₁.pulseRepetitionRateKHz = p₂.pulseRepetitionRateKHz)
    (h2 : p₁.frequencyMHz = p₂.frequencyMHz)
    (h3 : p₁.cycles = p₂.cycles)
    (h4 : p₁.transducerWidthCm = p₂.transducerWidthCm)
    (h5 : p₁.transducerHeightCm = p₂.transducerHeightCm)
    (h6 : p₁.transducerPressureKPa = p₂.transducerPressureKPa)
    (hm1 : calculateResults p₁ = some m₁) (hm2 : calculateResults p₂ = some m₂) :
    m₁.pulseDurationSec = m₂.pulseDurationSec ∧ m₁.dutyCycle = m₂.dutyCycle ∧
      m₁.transducerAveragePowerMW = m₂.transducerAveragePowerMW := by
  rw [calculateResults_some_eq p₁ m₁ hm1, calculateResults_some_eq p₂ m₂ hm2]
  refine ⟨?_, ?_, ?_⟩ <;>
    simp [metricsOf, pulseDurationSecOf, dutyCycleOf, transducerAvgIntensityOf,
      transducerIntensityOf, h1, h2, h3, h4, h5, h6]

/-- Default parameters with both focusing axes enabled at 4 cm and 5 cm. -/
def focusedParams : SafetyParams :=
  { defaultParams with
    useElevationalFocusing := true
    useAzimuthalFocusing := true
    elevationalFocalDepthCm := 4
    azimuthalFocalDepthCm := 5 }

/-- Witness for C9: enabling both focusing axes leaves the timing and the
radiated transducer power unchanged. -/
theorem focusing_frame_effect_witness :
    (metricsOf defaultParams).pulseDurationSec = (metricsOf focusedParams).pulseDurationSec ∧
      (metricsOf defaultParams).dutyCycle = (metricsOf focusedParams).dutyCycle ∧
      (metricsOf defaultParams).transducerAveragePowerMW =
        (metricsOf focusedParams).transducerAveragePowerMW :=
  focusing_frame_effect defaultParams focusedParams (metricsOf defaultParams)
    (metricsOf focusedParams) rfl rfl rfl rfl rfl rfl
    (calculateResults_eq defaultParams
      (by norm_num [focalGuardFires, defaultParams, skullDepthCm]))
    (calculateResults_eq focusedParams
      (by norm_num [focalGuardFires, focusedParams, defaultParams, skullDepthCm]))

/-- Default parameters with elevational focusing on and frequency 1 MHz. -/
def elevFocusFreq1 : SafetyParams :=
  { defaultParams with
    useElevationalFocusing := true
    frequencyMHz := 1 }

/-- Default parameters with elevational focusing on and frequency 4 MHz. -/
def elevFocusFreq4 : SafetyParams :=
  { defaultParams with
    useElevationalFocusing := true
    frequencyMHz := 4 }

theorem gain_at_freq1 : calculateFocusingGain 1.33 3 1 = Real.sqrt (2527 / 660) := by
  simp only [calculateFocusingGain]
  norm_num [SPEED_OF_SOUND_M_PER_S, MHZ_TO_HZ, CM_TO_M]

theorem gain_at_freq4 : calculateFocusingGain 1.33 3 4 = 2 * Real.sqrt (2527 / 660) := by
  simp only [calculateFocusingGain]
  rw [show ((1.33 * CM_TO_M : ℝ) ^ 2 /
      (SPEED_OF_SOUND_M_PER_S / (4 * MHZ_TO_HZ) * (3 * CM_TO_M))) = 4 * (2527 / 660) from by
    norm_num [SPEED_OF_SOUND_M_PER_S, MHZ_TO_HZ, CM_TO_M]]
  rw [Real.sqrt_mul (by norm_num : (0:ℝ) ≤ 4)]
  rw [show (4:ℝ) = 2 ^ 2 from by norm_num, Real.sqrt_sq (by norm_num : (0:ℝ) ≤ 2)]

/-- C3 counterexample: with elevational focusing enabled (all other
parameters fixed), quadrupling the frequency from 1 MHz to 4 MHz leaves the
computed mechanical index unchanged — the focusing gain grows as the square
root of the frequency and cancels the `1/sqrt(f)` in MI — so MI is not
strictly smaller at the larger frequency. -/
theorem mi_not_decreasing_with_focusing :
    (calculateResults elevFocusFreq4).map SafetyMetrics.mechanicalIndex =
      (calculateResults elevFocusFreq1).map SafetyMetrics.mechanicalIndex ∧
      ((calculateResults elevFocusFreq1).map SafetyMetrics.mechanicalIndex).isSome = true := by
  rw [calculateResults_eq elevFocusFreq4
      (by norm_num [focalGuardFires, elevFocusFreq4, defaultParams, skullDepthCm]),
    calculateResults_eq elevFocusFreq1
      (by norm_num [focalGuardFires, elevFocusFreq1, defaultParams, skullDepthCm])]
  refine ⟨?_, rfl⟩
  have hs4 : Real.sqrt (4:ℝ) = 2 := by
    rw [show (4:ℝ) = 2 ^ 2 from by norm_num, Real.sqrt_sq (by norm_num : (0:ℝ) ≤ 2)]
  simp only [Option.map_some']
  congr 1
  simp only [metricsOf, calculateMechanicalIndex, brainPressurePa,
    elevFocusFreq4, elevFocusFreq1, defaultParams]
  simp only [if_true, if_false, Bool.false_eq_true, ite_false, ite_true]
  rw [gain_at_freq4, gain_at_freq1, Real.sqrt_one, hs4]
  ring

/-- C3 amended: with both focusing toggles off, the computed mechanical
index is strictly decreasing in `frequencyMHz` for fixed positive pressure;
with focusing enabled the gain scales as the square root of the frequency,
so MI is constant (one axis) or increasing (both axes) in frequency. -/
theorem mi_strictly_decreasing_without_focusing (p : SafetyParams) (f₁ f₂ : ℝ)
    (m₁ m₂ : SafetyMetrics)
    (he : p.useElevationalFocusing = false) (ha : p.useAzimuthalFocusing = false)
    (hp : 0 < p.transducerPressureKPa) (hf₁ : 0 < f₁) (hlt : f₁ < f₂)
    (hm₁ : calculateResults { p with frequencyMHz := f₁ } = some m₁)
    (hm₂ : calculateResults { p with frequencyMHz := f₂ } = some m₂) :
    m₂.mechanicalIndex < m₁.mechanicalIndex := by
  rw [calculateResults_some_eq _ _ hm₁, calculateResults_some_eq _ _ hm₂]
  simp only [metricsOf, calculateMechanicalIndex, brainPressurePa, he, ha,
    Bool.false_eq_true, ite_false]
  have hsqrt₁ : 0 < Real.sqrt f₁ := Real.sqrt_pos.mpr hf₁
  have hsqrtlt : Real.sqrt f₁ < Real.sqrt f₂ := Real.sqrt_lt_sqrt hf₁.le hlt
  have hK : 0 < p.transducerPressureKPa * KPA_TO_PA * PA_TO_MPA :=
    mul_pos (mul_pos hp (by norm_num [KPA_TO_PA])) (by norm_num [PA_TO_MPA])
  exact div_lt_div_of_pos_left hK hsqrt₁ hsqrtlt

/-- Witness for C3 amended: with the default (unfocused) parameters, MI at
4 MHz is strictly below MI at 1 MHz. -/
theorem mi_strictly_decreasing_without_focusing_witness :
    (metricsOf { defaultParams with frequencyMHz := 4 }).mechanicalIndex <
      (metricsOf { defaultParams with frequencyMHz := 1 }).mechanicalIndex :=
  mi_strictly_decreasing_without_focusing defaultParams 1 4
    (metricsOf { defaultParams with frequencyMHz := 1 })
    (metricsOf { defaultParams with frequencyMHz := 4 })
    rfl rfl (by norm_num [defaultParams]) (by norm_num) (by norm_num)
    (calculateResults_eq _ (by norm_num [focalGuardFires, defaultParams, skullDepthCm]))
    (calculateResults_eq _ (by norm_num [focalGuardFires, defaultParams, skullDepthCm]))

set_option maxHeartbeats 1000000 in
/-- C10: both maximum-exposure lookups are monotonically non-increasing
in TIC. -/
theorem exposure_tables_antitone (t₁ t₂ : ℚ) (h : t₁ ≤ t₂) :
    getMaxExposureTime t₂ ≤ getMaxExposureTime t₁ ∧
      getITRUSSTMaxExposureTime t₂ ≤ getITRUSSTMaxExposureTime t₁ := by
  constructor
  · unfold getMaxExposureTime
    split_ifs <;>
      first
        | exact le_top
        | exact le_refl _
        | (rw [WithTop.coe_le_coe]; norm_num; done)
        | (exfalso; linarith)
  · unfold getITRUSSTMaxExposureTime
    split_ifs <;>
      first
        | exact le_top
        | exact le_refl _
        | (rw [WithTop.coe_le_coe]; norm_num; done)
        | (exfalso; linarith)

/-- Witness for C10: the tables do not increase from TIC 1 to TIC 2. -/
theorem exposure_tables_antitone_witness :
    getMaxExposureTime 2 ≤ getMaxExposureTime 1 ∧
      getITRUSSTMaxExposureTime 2 ≤ getITRUSSTMaxExposureTime 1 :=
  exposure_tables_antitone 1 2 (by norm_num)

end TFUS
